import Mathlib

/-!
Verification of `scripts/import_registry.py` (SongVote repository).

The script inspects its argument list: with fewer than two tokens it prints
a usage line; otherwise it echoes the path at index 1 and prints three fixed
instructional lines.  We embed the script as a pure function from the
argument list to the list of printed lines, modelling the list-index access
as a fallible operation and the observable behaviour (stdout trace, exit
code) explicitly.
-/

namespace ImportRegistry

/-- The usage line printed when no path argument is supplied
(line 7 of `scripts/import_registry.py`). -/
def usageLine : String :=
  "Usage: python scripts/import_registry.py /path/to/ect66_units.csv"

/-- The path-echo line: Python `print("CSV path:", path)` joins the two
pieces with a single space (line 10). -/
def pathLine (path : String) : String :=
  "CSV path: " ++ path

/-- First fixed instructional line (line 11). -/
def runLine : String :=
  "Run: psql <conn> -f db/staging_import.sql"

/-- Second fixed instructional line (line 12); the Python source `"\copy"`
contains a literal backslash. -/
def copyLine : String :=
  "Then: \\copy staging_units FROM '...csv...' WITH (FORMAT csv, HEADER true);"

/-- Third fixed instructional line (line 13). -/
def insertLine : String :=
  "Then run the INSERT statements in staging_import.sql"

/-- Observable side effects a process run could perform.  The script only
ever emits `stdoutWrite` effects; the other constructors give the vocabulary
needed to state the frame conditions. -/
inductive Effect where
  | stdoutWrite : String → Effect
  | fileRead : String → Effect
  | fileWrite : String → Effect
  | network : Effect
  | envMutation : Effect
  deriving DecidableEq

/-- Shallow embedding of `main` from `scripts/import_registry.py`.  The
argument is the full `sys.argv` list (program name at index 0); the result
is the list of lines printed to standard output.  The access `sys.argv[1]`
is modelled as the fallible `List.get?`, so an unguarded out-of-range
access would surface as an `IndexError`. -/
def main (argv : List String) : Except String (List String) :=
  if argv.length < 2 then
    Except.ok [usageLine]
  else
    match argv.get? 1 with
    | some path => Except.ok [pathLine path, runLine, copyLine, insertLine]
    | none => Except.error "IndexError: list index out of range"

/-- The lines actually printed (empty on an uncaught error). -/
def printedLines (argv : List String) : List String :=
  match main argv with
  | Except.ok ls => ls
  | Except.error _ => []

/-- Each `print` terminates its line with a newline; `render` is the byte
content written to standard output. -/
def render : List String → String
  | [] => ""
  | l :: ls => l ++ "\n" ++ render ls

/-- Full standard-output text of one invocation. -/
def output (argv : List String) : String :=
  render (printedLines argv)

/-- The effect trace of one invocation: one stdout write per printed line,
and nothing else. -/
def trace (argv : List String) : List Effect :=
  (printedLines argv).map Effect.stdoutWrite

/-- Process exit status: `main` returns normally (exit 0) unless an
uncaught exception escapes (exit 1). -/
def exitCode (argv : List String) : Nat :=
  match main argv with
  | Except.ok _ => 0
  | Except.error _ => 1

/-! ### Basic evaluation lemmas -/

theorem main_short (argv : List String) (h : argv.length < 2) :
    main argv = Except.ok [usageLine] := by
  simp [main, h]

theorem main_cons (a p : String) (rest : List String) :
    main (a :: p :: rest) =
      Except.ok [pathLine p, runLine, copyLine, insertLine] := by
  have h : ¬ (a :: p :: rest).length < 2 := by
    simp [List.length]
  simp [main, h]

theorem printedLines_short (argv : List String) (h : argv.length < 2) :
    printedLines argv = [usageLine] := by
  simp [printedLines, main_short argv h]

theorem printedLines_cons (a p : String) (rest : List String) :
    printedLines (a :: p :: rest) =
      [pathLine p, runLine, copyLine, insertLine] := by
  simp [printedLines, main_cons]

theorem exists_cons_of_two_le (argv : List String) (h : 2 ≤ argv.length) :
    ∃ a p rest, argv = a :: p :: rest := by
  match argv with
  | a :: p :: rest => exact ⟨a, p, rest, rfl⟩
  | [] => simp at h
  | [a] => simp at h

/-- The usage line does not start with `"CSV path: "`, so it is never a
path-echo line. -/
theorem pathLine_ne_usage (p : String) : pathLine p ≠ usageLine := by
  intro h
  have hd : "CSV path: ".data ++ p.data = usageLine.data := by
    have h2 := congrArg String.data h
    simpa [pathLine] using h2
  have ht : ("CSV path: ".data ++ p.data).take 10 = usageLine.data.take 10 :=
    congrArg (List.take 10) hd
  rw [List.take_left' (by decide)] at ht
  exact absurd ht (by decide)

/-! ### Claims -/

/-- C1: whenever a path argument is present (at least two tokens in the
argument list), the program prints, in order, the `CSV path:` echo of the
literal path, a fixed line naming `db/staging_import.sql`, a fixed line
showing the exact copy-command syntax, and a fixed line about running the
INSERT statements in that SQL file. -/
theorem spec_c1 (a p : String) (rest : List String) :
    main (a :: p :: rest) =
      Except.ok [pathLine p, runLine, copyLine, insertLine] ∧
    pathLine p = "CSV path: " ++ p ∧
    List.IsInfix "db/staging_import.sql".data runLine.data ∧
    copyLine = "Then: " ++
      "\\copy staging_units FROM '...csv...' WITH (FORMAT csv, HEADER true);" ∧
    List.IsInfix "INSERT".data insertLine.data ∧
    List.IsInfix "staging_import.sql".data insertLine.data :=
  ⟨main_cons a p rest, rfl, by decide, by decide, by decide, by decide⟩

/-- C2: for every string `p` supplied as the first user argument (empty,
with spaces, nonexistent paths alike), the first printed line is exactly
`"CSV path: " ++ p`. -/
theorem spec_c2 (a p : String) (rest : List String) :
    (printedLines (a :: p :: rest)).head? = some ("CSV path: " ++ p) := by
  rw [printedLines_cons]
  rfl

/-- C3: with fewer than two tokens in the argument list the program prints
exactly the usage line, exits successfully, and neither the path echo nor
any instructional line appears. -/
theorem spec_c3 (argv : List String) (h : argv.length < 2) :
    printedLines argv = [usageLine] ∧
    exitCode argv = 0 ∧
    (∀ p, pathLine p ∉ printedLines argv) ∧
    runLine ∉ printedLines argv ∧
    copyLine ∉ printedLines argv ∧
    insertLine ∉ printedLines argv := by
  have hp := printedLines_short argv h
  refine ⟨hp, ?_, ?_, ?_, ?_, ?_⟩
  · simp [exitCode, main_short argv h]
  · intro p hmem
    rw [hp] at hmem
    exact pathLine_ne_usage p (List.mem_singleton.mp hmem)
  · rw [hp]; decide
  · rw [hp]; decide
  · rw [hp]; decide

/-- Witness for C3 at the empty argument list. -/
theorem spec_c3_witness :
    printedLines [] = [usageLine] ∧
    exitCode [] = 0 ∧
    (∀ p, pathLine p ∉ printedLines []) ∧
    runLine ∉ printedLines [] ∧
    copyLine ∉ printedLines [] ∧
    insertLine ∉ printedLines [] :=
  spec_c3 [] (by decide)

/-- C4: with zero user-supplied arguments (argument list `[a]`, or even
empty) the single printed line is the usage line, which contains the
substrings `Usage:` and `scripts/import_registry.py`. -/
theorem spec_c4 (a : String) :
    printedLines [a] = [usageLine] ∧
    printedLines [] = [usageLine] ∧
    List.IsInfix "Usage:".data usageLine.data ∧
    List.IsInfix "scripts/import_registry.py".data usageLine.data :=
  ⟨printedLines_short [a] (by simp), printedLines_short [] (by decide),
    by decide, by decide⟩

/-- C5: the three instructional lines after the path echo are the same for
every path value, and the output is a pure function of the argument list:
equal argument lists give byte-identical output. -/
theorem spec_c5 (argv argv2 : List String) (a p : String) (rest : List String) :
    (printedLines (a :: p :: rest)).tail = [runLine, copyLine, insertLine] ∧
    (argv = argv2 → output argv = output argv2) := by
  constructor
  · rw [printedLines_cons]; rfl
  · intro h
    rw [h]

/-- Witness for C5: tail constancy at a concrete invocation, and
byte-identical output for a repeated identical invocation. -/
theorem spec_c5_witness :
    (printedLines ["prog", "x y.csv"]).tail = [runLine, copyLine, insertLine] ∧
    output ["prog", "x y.csv"] = output ["prog", "x y.csv"] :=
  ⟨(spec_c5 ["prog", "x y.csv"] ["prog", "x y.csv"] "prog" "x y.csv" []).1,
    (spec_c5 ["prog", "x y.csv"] ["prog", "x y.csv"] "prog" "x y.csv" []).2 rfl⟩

/-- C6: every argument list gives exit status 0; the missing-argument case
is reported only through the printed usage line, never by a non-zero exit
code. -/
theorem spec_c6 (argv : List String) : exitCode argv = 0 := by
  match argv with
  | [] => rfl
  | [a] => rfl
  | a :: p :: rest => simp [exitCode, main_cons]

/-- C7: no argument list makes the entry point raise: the index-1 access is
guarded by the length check, so `main` always returns `ok`, and the given
path is never opened (no `fileRead` effect ever occurs). -/
theorem spec_c7 (argv : List String) :
    (∃ ls, main argv = Except.ok ls) ∧
    (∀ e ∈ trace argv, ∀ q, e ≠ Effect.fileRead q) := by
  constructor
  · match argv with
    | [] => exact ⟨[usageLine], rfl⟩
    | [a] => exact ⟨[usageLine], rfl⟩
    | a :: p :: rest =>
      exact ⟨[pathLine p, runLine, copyLine, insertLine], main_cons a p rest⟩
  · intro e he q
    rcases List.mem_map.mp he with ⟨l, _, rfl⟩
    intro hcontra
    exact Effect.noConfusion hcontra

/-- Witness for C7: the concrete invocation with path `f.csv` prints its
echo line and in particular never reads that file. -/
theorem spec_c7_witness :
    Effect.stdoutWrite (pathLine "f.csv") ≠ Effect.fileRead "f.csv" :=
  (spec_c7 ["prog", "f.csv"]).2 (Effect.stdoutWrite (pathLine "f.csv"))
    (by decide) "f.csv"

/-- C8: in every execution the only side effects are writes to standard
output: every element of the effect trace is a `stdoutWrite`, so there is
no file or network I/O, no environment mutation, and no persisted state. -/
theorem spec_c8 (argv : List String) :
    ∀ e ∈ trace argv, ∃ s, e = Effect.stdoutWrite s := by
  intro e he
  rcases List.mem_map.mp he with ⟨l, _, rfl⟩
  exact ⟨l, rfl⟩

/-- Witness for C8 at the no-argument invocation. -/
theorem spec_c8_witness :
    ∃ s, Effect.stdoutWrite usageLine = Effect.stdoutWrite s :=
  spec_c8 ["prog"] (Effect.stdoutWrite usageLine) (by decide)

/-- C9: with two or more user-supplied arguments, only the one at index 1
influences the behaviour: the run is identical to the run on the argument
list truncated to its first two tokens. -/
theorem spec_c9 (argv : List String) (h : 3 ≤ argv.length) :
    main argv = main (argv.take 2) ∧ output argv = output (argv.take 2) := by
  obtain ⟨a, p, rest, rfl⟩ := exists_cons_of_two_le argv (by omega)
  have ht : (a :: p :: rest).take 2 = [a, p] := rfl
  have hm : main (a :: p :: rest) = main ((a :: p :: rest).take 2) := by
    rw [ht, main_cons, main_cons]
  exact ⟨hm, by simp [output, printedLines, hm]⟩

/-- Witness for C9: extra arguments beyond the first are ignored. -/
theorem spec_c9_witness :
    main ["prog", "a.csv", "ignored"] = main (["prog", "a.csv", "ignored"].take 2) ∧
    output ["prog", "a.csv", "ignored"] = output (["prog", "a.csv", "ignored"].take 2) :=
  spec_c9 ["prog", "a.csv", "ignored"] (by decide)

/-- C10: with a path argument present the output is exactly four
newline-terminated lines — the path echo followed by the three
instructional lines — and nothing else. -/
theorem spec_c10 (a p : String) (rest : List String) :
    (printedLines (a :: p :: rest)).length = 4 ∧
    output (a :: p :: rest) =
      pathLine p ++ "\n" ++ runLine ++ "\n" ++ copyLine ++ "\n" ++
        insertLine ++ "\n" := by
  constructor
  · rw [printedLines_cons]; rfl
  · rw [output, printedLines_cons]
    simp [render, String.append_assoc]

end ImportRegistry
